import Mathlib

/-!
# Verification of gi-docgen GIR parsing and resolution

Shallow embedding of the data model and the operations of
`gidocgen/gir/ast.py` and `gidocgen/gir/parser.py` that the claims are
about, with theorems settling each claim.

Python objects are modelled as Lean structures; Python `None` becomes
`Option`; code that can raise becomes `Except String`; XML attribute
dictionaries become association lists.  Python dicts keep insertion
order, so they are modelled as association lists with an upsert that
replaces in place.
-/

deriving instance DecidableEq for Except

namespace GiDocgen

/-- An XML attribute dictionary (`node.attrib`). -/
abbrev Attrs := List (String × String)

/-- `node.attrib.get(key)` — first binding wins, as in a dict with unique keys. -/
def attrGet (a : Attrs) (k : String) : Option String :=
  a.lookup k

/-- Insert-or-replace into an insertion-ordered dict, as Python dict
assignment does: an existing key keeps its position, a new key goes to
the end. -/
def dictUpsert {α : Type} (d : List (String × α)) (k : String) (v : α) :
    List (String × α) :=
  match d with
  | [] => [(k, v)]
  | (k0, v0) :: rest =>
    if k0 == k then (k, v) :: rest else (k0, v0) :: dictUpsert rest k v

/-- Truthiness of a Python `Optional[str]`: `None` and `""` are falsy. -/
def pyTruthy : Option String → Bool
  | none => false
  | some s => !(s == "")

/-- Python `c in s` for a single character, over the character list of
the string. -/
def pyContains (s : String) (c : Char) : Bool :=
  s.data.contains c

/-- Splitting a character list at a separator character. -/
def splitCharList (sep : Char) : List Char → List Char → List (List Char)
  | [], cur => [cur.reverse]
  | c :: rest, cur =>
    if c == sep then cur.reverse :: splitCharList sep rest []
    else splitCharList sep rest (c :: cur)

/-- Python `s.split(c)` for a single-character separator. -/
def pySplit (s : String) (sep : Char) : List String :=
  (splitCharList sep s.data []).map String.mk

/-! ## `ast.py`: `Type` and its (buggy) structural equality -/

/-- The data of `ast.Type` relevant to `__eq__`: the GIR name and the
optional C type.  `Type.__init__` derives `self.namespace` from the
name, so it is a function here (`PyType.pyNamespace`). -/
structure PyType where
  name : String
  ctype : Option String
  deriving Repr, DecidableEq

/-- `Type.__init__`: `self.namespace = name.split('.')[0]` when `'.' in name`,
else `None`. -/
def PyType.pyNamespace (t : PyType) : Option String :=
  if pyContains t.name '.' then some ((pySplit t.name '.').headD "") else none

/-- `Type.__eq__` (ast.py lines 166–177), restricted to the
`isinstance(other, Type)` case.  Transcribed exactly: in the namespace
branch the source compares `self.name == self.name` (not `other.name`). -/
def typeEq (a b : PyType) : Bool :=
  match a.pyNamespace with
  | some _ => (a.pyNamespace == b.pyNamespace) && (a.name == a.name)
  | none =>
    match a.ctype with
    | some _ => (a.name == b.name) && (a.ctype == b.ctype)
    | none => a.name == b.name

/-- What the spec states `Type.__eq__` to be: structural over namespace
and name when the name is namespace-qualified. -/
def typeEqSpec (a b : PyType) : Bool :=
  match a.pyNamespace with
  | some _ => (a.pyNamespace == b.pyNamespace) && (a.name == b.name)
  | none =>
    match a.ctype with
    | some _ => (a.name == b.name) && (a.ctype == b.ctype)
    | none => a.name == b.name

/-! ## `ast.py`: `GType`, `Interface.type_func`, `Class.type_struct` / `type_func` -/

/-- `ast.GType`. -/
structure GType where
  type_name : String
  get_type : String
  type_struct : Option String
  deriving Repr, DecidableEq

/-- A method or function, reduced to the fields `resolve_symbols` reads. -/
structure PyMethod where
  name : String
  identifier : String
  deriving Repr, DecidableEq

/-- `ast.Function`: a namespace-level function. -/
structure PyFunction where
  name : String
  identifier : String
  deriving Repr, DecidableEq

/-- `ast.Class`, reduced to the fields read by the operations under
verification (`type_struct`, `type_func`, `resolve_class_ancestors`,
`resolve_symbols`). -/
structure Class where
  name : String
  ctype : Option String
  gtype : Option GType
  parent : Option PyType
  ancestors : List PyType
  methods : List PyMethod
  deriving Repr, DecidableEq

/-- `ast.Interface`, reduced likewise. -/
structure Interface where
  name : String
  ctype : Option String
  gtype : Option GType
  methods : List PyMethod
  deriving Repr, DecidableEq

/-- `ast.Record`, reduced likewise. -/
structure Record where
  name : String
  methods : List PyMethod
  deriving Repr, DecidableEq

/-- `ast.Union`, reduced likewise. -/
structure Union where
  name : String
  methods : List PyMethod
  deriving Repr, DecidableEq

/-- `Interface.type_func` (ast.py 469–471): `return self.gtype.get_type`
with no `None` guard — an `Interface` whose `gtype` is `None` raises
`AttributeError`. -/
def Interface.typeFunc (i : Interface) : Except String String :=
  match i.gtype with
  | none => .error "AttributeError"
  | some g => .ok g.get_type

/-- `Interface.type_struct` (ast.py 463–467). -/
def Interface.typeStruct (i : Interface) : Option String :=
  match i.gtype with
  | none => i.ctype
  | some g => g.type_struct

/-- `Class.type_struct` (ast.py 519–523): `None` when `gtype` is `None`. -/
def Class.typeStruct (c : Class) : Option String :=
  match c.gtype with
  | none => none
  | some g => g.type_struct

/-- `Class.type_func` (ast.py 525–529): falls back to `self.ctype`
when `gtype` is `None`; never raises, hence total. -/
def Class.typeFunc (c : Class) : Option String :=
  match c.gtype with
  | none => c.ctype
  | some g => some g.get_type

end GiDocgen

namespace GiDocgen

/-! ## `ast.py`: `Namespace` and `Repository` -/

/-- `ast.Namespace`, reduced to the registries read by
`resolve_class_ancestors` and `resolve_symbols` (each Python
`Mapping[str, X]` keyed by `x.name`, kept in insertion order). -/
structure Namespace where
  name : String
  classes : List Class
  interfaces : List Interface
  records : List Record
  unions : List Union
  functions : List PyFunction
  deriving Repr, DecidableEq

/-- `Namespace.find_class`: `self._classes.get(cls)`. -/
def Namespace.findClass (ns : Namespace) (cls : String) : Option Class :=
  ns.classes.find? (fun c => c.name == cls)

/-- `ast.Repository`, reduced to its namespace list. -/
structure Repository where
  namespaces : List Namespace
  deriving Repr, DecidableEq

/-- `Repository.add_namespace` (ast.py 809–810): appends. -/
def Repository.addNamespace (r : Repository) (ns : Namespace) : Repository :=
  { r with namespaces := r.namespaces ++ [ns] }

/-- `Repository.namespace` (ast.py 886–888): `self._namespaces[0]`,
which raises `IndexError` on an empty list. -/
def Repository.namespaceProp (r : Repository) : Except String Namespace :=
  match r.namespaces with
  | [] => .error "IndexError"
  | ns :: _ => .ok ns

/-! ## `Repository.resolve_class_ancestors` (ast.py 837–866)

The method walks, for each class with a parent, the chain of parent
type references, appending each reference to `ancestors` before trying
to resolve it to a `Class` (locally by `find_class`, or through the
included repositories for a dotted name).  The walk is a `while` loop
with no cycle guard, so it is embedded fuel-indexed: a `.ok none`
result means the fuel ran out, i.e. the loop had not yet exited.
`self.includes.values()` only ever reaches `repo.namespace`, so the
includes dict is embedded as a name-keyed list of namespaces. -/

/-- The inner `find_parent_class(includes, ns, name)` (ast.py 838–845).
Transcribed exactly: the source filters on
`repo.namespace.name != name` — the *class* name, not the namespace
`ns`, which it never uses. -/
def findParentClass (includes : List (String × Namespace)) (_ns name : String) :
    Option Class :=
  includes.findSome? fun inc =>
    if inc.2.name == name then inc.2.findClass name else none

/-- Resolution of one parent type reference to a `Class`, as done in the
loop body (ast.py 855–863): a dotted name resolves in its namespace (a
name with more than one dot makes the two-target unpacking raise
`ValueError`), an undotted name resolves locally. -/
def resolveParentRef (ns : Namespace) (includes : List (String × Namespace))
    (p : PyType) : Except String (Option Class) :=
  if pyContains p.name '.' then
    match pySplit p.name '.' with
    | [pns, pname] =>
      if pns == ns.name then .ok (ns.findClass pname)
      else .ok (findParentClass includes pns pname)
    | _ => .error "ValueError"
  else
    .ok (ns.findClass p.name)

/-- One iteration's net effect on the loop variable `parent`: the next
parent reference, or `none` when the loop is about to exit (reference
unresolved, or resolved class has no parent). -/
def stepParent (ns : Namespace) (includes : List (String × Namespace))
    (p : PyType) : Except String (Option PyType) :=
  match resolveParentRef ns includes p with
  | .error e => .error e
  | .ok none => .ok none
  | .ok (some cls) => .ok cls.parent

/-- The `while parent is not None` loop (ast.py 852–864), fuel-indexed.
Each iteration appends the current reference to the accumulator and
steps; `.ok none` signals fuel exhaustion. -/
def ancestorsLoop (ns : Namespace) (includes : List (String × Namespace)) :
    Nat → PyType → List PyType → Except String (Option (List PyType))
  | 0, _, _ => .ok none
  | fuel + 1, p, acc =>
    match stepParent ns includes p with
    | .error e => .error e
    | .ok none => .ok (some (acc ++ [p]))
    | .ok (some q) => ancestorsLoop ns includes fuel q (acc ++ [p])

/-- `resolve_class_ancestors` restricted to one class (the body of the
`for cls in classes` loop, ast.py 848–866): a class without a parent is
skipped; otherwise `ancestors` becomes the accumulated chain and
`parent` is re-assigned `ancestors[0]`. -/
def resolveClassAncestors1 (ns : Namespace) (includes : List (String × Namespace))
    (fuel : Nat) (cls : Class) : Except String (Option Class) :=
  match cls.parent with
  | none => .ok (some cls)
  | some p =>
    match ancestorsLoop ns includes fuel p [] with
    | .error e => .error e
    | .ok none => .ok none
    | .ok (some anc) => .ok (some { cls with ancestors := anc, parent := anc.head? })

/-- The `for cls in classes` loop over a list of classes. -/
def resolveAllClasses (ns : Namespace) (includes : List (String × Namespace))
    (fuel : Nat) : List Class → Except String (Option (List Class))
  | [] => .ok (some [])
  | c :: cs =>
    match resolveClassAncestors1 ns includes fuel c with
    | .error e => .error e
    | .ok none => .ok none
    | .ok (some c') =>
      match resolveAllClasses ns includes fuel cs with
      | .error e => .error e
      | .ok none => .ok none
      | .ok (some cs') => .ok (some (c' :: cs'))

/-- `Repository.resolve_class_ancestors`: processes every class of the
namespace.  Each class's chain only reads the (unchanged) name-keyed
class registry and the original `parent` references, so the per-class
results are independent and reassembled functionally. -/
def resolveClassAncestors (ns : Namespace) (includes : List (String × Namespace))
    (fuel : Nat) : Except String (Option Namespace) :=
  match resolveAllClasses ns includes fuel ns.classes with
  | .error e => .error e
  | .ok none => .ok none
  | .ok (some cs) => .ok (some { ns with classes := cs })

/-- The reference visited at step `n` of the chain that the loop walks,
starting from reference `p` (`.ok none`: the loop exits within `n`
steps). -/
def chainRef (ns : Namespace) (includes : List (String × Namespace)) :
    Nat → PyType → Except String (Option PyType)
  | 0, p => .ok (some p)
  | n + 1, p =>
    match stepParent ns includes p with
    | .error e => .error e
    | .ok none => .ok none
    | .ok (some q) => chainRef ns includes n q

/-- The `Class`-against-`Type` view used when Python evaluates
`cls in cls.ancestors`: a `Class` is an `ast.Type`, so each ancestor
entry `r` is compared by `r.__eq__(cls)`. -/
def Class.asType (c : Class) : PyType :=
  { name := c.name, ctype := c.ctype }

/-- Python membership `cls in anc` for a list of `Type` nodes:
`Type.__eq__` never returns `NotImplemented`, so CPython only evaluates
`element == cls`. -/
def pyMemClass (c : Class) (anc : List PyType) : Bool :=
  anc.any fun r => typeEq r c.asType

/-! ## `Repository.resolve_symbols` (ast.py 868–884)

Builds the identifier-to-owner dict.  The last loop,
`for union in ...get_unions()`, stores `symbols[m.identifier] = record`
— the loop variable left over from the preceding records loop — so a
union's methods are recorded under the *last record* of the namespace,
and when the namespace has no records the name `record` is unbound and
the assignment raises `NameError`. -/

/-- The possible values of the symbols dict. -/
inductive Symbol where
  | func : PyFunction → Symbol
  | cls : Class → Symbol
  | iface : Interface → Symbol
  | record : Record → Symbol
  deriving Repr, DecidableEq

/-- The symbols dict. -/
abbrev SymTable := List (String × Symbol)

/-- The union loop (ast.py 881–883), parameterised by the value of the
Python variable `record` after the records loop (`none` = unbound). -/
def unionSymbolsLoop (lastRecord : Option Record) :
    List Union → SymTable → Except String SymTable
  | [], d => .ok d
  | u :: us, d =>
    match (u.methods.foldlM (fun d m =>
        match lastRecord with
        | some r => Except.ok (dictUpsert d m.identifier (Symbol.record r))
        | none => Except.error "NameError: record is not defined") d :
        Except String SymTable) with
    | .error e => .error e
    | .ok d' => unionSymbolsLoop lastRecord us d'

/-- `Repository.resolve_symbols`: the five loops in source order. -/
def resolveSymbols (ns : Namespace) : Except String SymTable :=
  let s0 : SymTable :=
    ns.functions.foldl (fun d f => dictUpsert d f.identifier (Symbol.func f)) []
  let s1 : SymTable :=
    ns.classes.foldl (fun d c =>
      c.methods.foldl (fun d m => dictUpsert d m.identifier (Symbol.cls c)) d) s0
  let s2 : SymTable :=
    ns.interfaces.foldl (fun d i =>
      i.methods.foldl (fun d m => dictUpsert d m.identifier (Symbol.iface i)) d) s1
  let s3 : SymTable :=
    ns.records.foldl (fun d r =>
      r.methods.foldl (fun d m => dictUpsert d m.identifier (Symbol.record r)) d) s2
  unionSymbolsLoop ns.records.getLast? ns.unions s3

/-! ## `GIRElement.deprecated_since` (ast.py 146–154) and the parser's
deprecation handling (`_maybe_parse_docs`, parser.py 333–337) -/

/-- `ast.Info`, reduced to the deprecation fields. `Info()` defaults
both to `None`. -/
structure Info where
  deprecated_msg : Option String
  deprecated_version : Option String
  deriving Repr, DecidableEq

/-- A fresh `Info()`. -/
def Info.default : Info :=
  { deprecated_msg := none, deprecated_version := none }

/-- `GIRElement.set_deprecated` (ast.py 126–130). -/
def setDeprecated (i : Info) (doc : Option String) (since : Option String) : Info :=
  { i with deprecated_msg := doc, deprecated_version := since }

/-- `GIRElement.deprecated_since` (ast.py 146–154), transcribed exactly:
the guard `if not self.info.deprecated_msg: return None` fires on both
`None` and `""`, after which the `if message is None` default
(`"Please do not use it in newly written code"`) can no longer fire. -/
def deprecatedSince (i : Info) : Option (Option String × Option String) :=
  if !(pyTruthy i.deprecated_msg) then none
  else
    let version := i.deprecated_version
    let message := i.deprecated_msg
    let message := if message == none
      then some "Please do not use it in newly written code" else message
    some (version, message)

/-- The relevant content of an XML element for deprecation parsing:
its attributes and the joined text of a `core:doc-deprecated` child
(`none` when the child is absent; note an empty child joins to `""`). -/
structure XMLNode where
  attrib : Attrs
  docDeprecatedText : Option String
  deriving Repr, DecidableEq

/-- `GirParser._maybe_parse_deprecated_doc` (parser.py 300–305). -/
def maybeParseDeprecatedDoc (node : XMLNode) : Option String :=
  node.docDeprecatedText

/-- The deprecation tail of `GirParser._maybe_parse_docs`
(parser.py 333–337): any `deprecated` attribute (whatever its value)
triggers `set_deprecated(doc_deprecated, deprecated_version)`. -/
def maybeParseDocsDeprecated (node : XMLNode) (i : Info) : Info :=
  match attrGet node.attrib "deprecated" with
  | none => i
  | some _ =>
    setDeprecated i (maybeParseDeprecatedDoc node)
      (attrGet node.attrib "deprecated-version")

/-! ## `GirParser._parse_parameter` (parser.py 536–555) -/

/-- `ast.Parameter`, reduced to the scalar fields `_parse_parameter`
fills from attributes (the target type, closure/destroy indices and doc
parsing are orthogonal to the defaulting under verification). -/
structure Parameter where
  name : Option String
  direction : String
  transfer : String
  nullable : Bool
  optional : Bool
  caller_allocates : Bool
  scope : Option String
  introspectable : Bool
  deriving Repr, DecidableEq

/-- `GirParser._parse_parameter`: each `node.attrib.get(key, default)`
transcribed. -/
def parseParameter (attrib : Attrs) : Parameter :=
  { name := attrGet attrib "name"
  , direction := (attrGet attrib "direction").getD "in"
  , transfer := (attrGet attrib "transfer-ownership").getD "none"
  , nullable := (attrGet attrib "nullable").getD "0" == "1"
  , optional := (attrGet attrib "optional").getD "0" == "1"
  , caller_allocates := (attrGet attrib "caller-allocates").getD "1" == "1"
  , scope := attrGet attrib "scope"
  , introspectable := (attrGet attrib "introspectable").getD "1" != "0" }

/-! ## `GirParser._parse_array` (parser.py 339–388), sizing logic -/

/-- The sizing fields of `ast.ArrayType` that `_parse_array` computes
from the `<array>` element's attributes (the element value type goes
through `_lookup_type` and is independent of the sizing). -/
structure ArraySizing where
  name : Option String
  ctype : Option String
  zero_terminated : Bool
  fixed_size : Int
  length : Int
  deriving Repr, DecidableEq

/-- `_parse_array`'s attribute logic, transcribed: `zero-terminated`,
when present, is compared against `"1"`; otherwise zero-termination is
inferred from the absence of `name`, `fixed-size` and `length`.
`int(...)` on a malformed `fixed-size`/`length` raises `ValueError`,
embedded as `none`. -/
def parseArraySizing (attrib : Attrs) : Option ArraySizing := do
  let array_name := attrGet attrib "name"
  let array_type := attrGet attrib "c:type"
  let attr_zero_terminated := attrGet attrib "zero-terminated"
  let attr_fixed_size := attrGet attrib "fixed-size"
  let attr_length := attrGet attrib "length"
  let zero_terminated :=
    match attr_zero_terminated with
    | some v => v == "1"
    | none =>
      array_name == none && attr_fixed_size == none && attr_length == none
  let fixed_size : Int ←
    match attr_fixed_size with
    | none => pure (-1)
    | some s => s.toInt?
  let length : Int ←
    match attr_length with
    | none => pure (-1)
    | some s => s.toInt?
  pure { name := array_name, ctype := array_type,
         zero_terminated := zero_terminated,
         fixed_size := fixed_size, length := length }

/-! ## `GirParser._parse_dependency` (parser.py 181–204)

The cache guard checks `self._dependencies.get(include.name)`; on a
miss, the search paths are scanned for `f"{include}.gir"`, the first
existing file is parsed with `ET.parse` + `_parse_tree` (which never
returns `None`: it asserts on a malformed root) and the repository is
cached under its *namespace* name.  The filesystem and XML parsing are
embedded as an environment mapping existing `.gir` paths to the
namespace name of the repository they parse to. -/

/-- `ast.Include`. -/
structure Include where
  name : String
  version : Option String
  deriving Repr, DecidableEq

/-- `Include.__str__` (ast.py 49–52). -/
def Include.str (i : Include) : String :=
  match i.version with
  | some v => i.name ++ "-" ++ v
  | none => i.name

/-- `os.path.join(base_path, f"{include}.gir")`. -/
def girfilePath (base : String) (inc : Include) : String :=
  base ++ "/" ++ Include.str inc ++ ".gir"

/-- The environment: which `.gir` paths exist, and the namespace name
of the repository that parsing each one yields. -/
abbrev GirEnv := List (String × String)

/-- What the cache records about a parsed dependency (the source
stores the whole `Repository`; only its namespace name and file are
read back here). -/
structure DepRepo where
  nsName : String
  girfile : String
  deriving Repr, DecidableEq

/-- The `GirParser` state touched by `_parse_dependency`: the
`_dependencies` cache, `_search_paths`, and the constructor's `error`
flag (`True` logs resolution failures, `False` raises). -/
structure DepState where
  dependencies : List (String × DepRepo)
  searchPaths : List String
  errorFlag : Bool
  deriving Repr, DecidableEq

/-- The `for base_path in self._search_paths` loop (parser.py 186–198):
the first existing `.gir` file is parsed and the loop breaks.  Returns
the cache entry to store (`none` when nothing was found) and the list
of files parsed during the scan. -/
def depSearchLoop (env : GirEnv) (inc : Include) :
    List String → Option (String × DepRepo) × List String
  | [] => (none, [])
  | base :: rest =>
    let gf := girfilePath base inc
    match env.lookup gf with
    | none => depSearchLoop env inc rest
    | some nsName => (some (nsName, { nsName := nsName, girfile := gf }), [gf])

/-- `GirParser._parse_dependency`: early return on a cache hit keyed by
`include.name`; otherwise scan, parse, and cache under the parsed
repository's namespace name; when nothing is found, log (when the
`error` flag is set) or raise `RuntimeError`.  The second component
lists the files parsed by the call. -/
def parseDependency (env : GirEnv) (st : DepState) (inc : Include) :
    Except String (DepState × List String) :=
  if (st.dependencies.lookup inc.name).isSome then .ok (st, [])
  else
    match depSearchLoop env inc st.searchPaths with
    | (some (nsName, repo), evs) =>
      .ok ({ st with dependencies := dictUpsert st.dependencies nsName repo }, evs)
    | (none, evs) =>
      if st.errorFlag then .ok (st, evs)
      else .error "RuntimeError"

theorem dictUpsert_lookup_self {α : Type} (d : List (String × α)) (k : String) (v : α) :
    (dictUpsert d k v).lookup k = some v := by
  induction d with
  | nil => simp [dictUpsert, List.lookup]
  | cons kv rest ih =>
    obtain ⟨k0, v0⟩ := kv
    by_cases h : k0 == k
    · simp [dictUpsert, h, List.lookup, (beq_iff_eq.mp h).symm]
    · simp only [dictUpsert, h, if_false, List.lookup]
      have h2 : (k == k0) = false := by
        rw [beq_eq_false_iff_ne]
        intro hc
        exact h (beq_iff_eq.mpr hc.symm)
      simp [h2, ih]

/-- Characterization of the search loop: either nothing is found and
nothing parsed, or the first hit is parsed, cached, and the scan stops. -/
theorem depSearchLoop_spec (env : GirEnv) (inc : Include) :
    ∀ paths : List String,
      depSearchLoop env inc paths = (none, [])
      ∨ ∃ base nsName, base ∈ paths
          ∧ env.lookup (girfilePath base inc) = some nsName
          ∧ depSearchLoop env inc paths =
              (some (nsName, { nsName := nsName, girfile := girfilePath base inc }),
               [girfilePath base inc]) := by
  intro paths
  induction paths with
  | nil => exact Or.inl rfl
  | cons base rest ih =>
    cases hl : env.lookup (girfilePath base inc) with
    | none =>
      rcases ih with h | ⟨b, nsn, hb, hlb, hres⟩
      · left
        simp only [depSearchLoop, hl]
        exact h
      · right
        refine ⟨b, nsn, List.mem_cons_of_mem base hb, hlb, ?_⟩
        simp only [depSearchLoop, hl]
        exact hres
    | some nsName =>
      right
      refine ⟨base, nsName, List.mem_cons_self base rest, hl, ?_⟩
      simp only [depSearchLoop, hl]

/-! ## Claim C8: dependency memoization -/

/-- C8: `_parse_dependency` is memoized and idempotent.  Provided every
`.gir` file the include can resolve to parses to a namespace carrying
the include's name (true of well-formed GIR files, whose
`Foo-1.0.gir` holds namespace `Foo`): a call for an include whose name
is already cached is a no-op that parses nothing and leaves the cache
untouched; any single call parses at most one file; and immediately
re-calling after any successful call is such a no-op — so each include's
file is located and parsed at most once per parser invocation. -/
theorem C8_dependency_memoization (env : GirEnv) (st : DepState) (inc : Include)
    (hwf : ∀ base ∈ st.searchPaths,
      (env.lookup (girfilePath base inc)).getD inc.name = inc.name) :
    ((st.dependencies.lookup inc.name).isSome = true →
        parseDependency env st inc = .ok (st, []))
    ∧ (∀ st' evs, parseDependency env st inc = .ok (st', evs) → evs.length ≤ 1)
    ∧ (∀ st' evs, parseDependency env st inc = .ok (st', evs) →
        parseDependency env st' inc = .ok (st', [])) := by
  by_cases hc : (st.dependencies.lookup inc.name).isSome = true
  · have heq : parseDependency env st inc = .ok (st, []) := by
      simp [parseDependency, hc]
    refine ⟨fun _ => heq, ?_, ?_⟩
    · intro st' evs h
      rw [heq] at h
      simp only [Except.ok.injEq, Prod.mk.injEq] at h
      obtain ⟨h1, h2⟩ := h
      subst h1
      subst h2
      simp
    · intro st' evs h
      rw [heq] at h
      simp only [Except.ok.injEq, Prod.mk.injEq] at h
      obtain ⟨h1, h2⟩ := h
      subst h1
      exact heq
  · rcases depSearchLoop_spec env inc st.searchPaths with
      hloop | ⟨base, nsn, hb, hlb, hloop⟩
    · have heq : parseDependency env st inc =
          if st.errorFlag then .ok (st, []) else .error "RuntimeError" := by
        simp [parseDependency, hc, hloop]
      refine ⟨fun h => absurd h hc, ?_, ?_⟩
      · intro st' evs h
        rw [heq] at h
        by_cases he : st.errorFlag
        · rw [if_pos he] at h
          simp only [Except.ok.injEq, Prod.mk.injEq] at h
          obtain ⟨h1, h2⟩ := h
          subst h2
          simp
        · rw [if_neg he] at h
          cases h
      · intro st' evs h
        rw [heq] at h
        by_cases he : st.errorFlag
        · rw [if_pos he] at h
          simp only [Except.ok.injEq, Prod.mk.injEq] at h
          obtain ⟨h1, h2⟩ := h
          subst h1
          rw [heq, if_pos he]
        · rw [if_neg he] at h
          cases h
    · have hns : nsn = inc.name := by
        have hw := hwf base hb
        rw [hlb] at hw
        simpa using hw
      have heq : parseDependency env st inc =
          .ok ({ st with dependencies := dictUpsert st.dependencies nsn (DepRepo.mk nsn (girfilePath base inc)) }, [girfilePath base inc]) := by
        simp [parseDependency, hc, hloop]
      refine ⟨fun h => absurd h hc, ?_, ?_⟩
      · intro st' evs h
        rw [heq] at h
        simp only [Except.ok.injEq, Prod.mk.injEq] at h
        obtain ⟨h1, h2⟩ := h
        subst h2
        simp
      · intro st' evs h
        rw [heq] at h
        simp only [Except.ok.injEq, Prod.mk.injEq] at h
        obtain ⟨h1, h2⟩ := h
        subst h1
        have hhit : (dictUpsert st.dependencies nsn (DepRepo.mk nsn (girfilePath base inc))).lookup inc.name =
            some (DepRepo.mk nsn (girfilePath base inc)) := by
          rw [← hns]
          exact dictUpsert_lookup_self st.dependencies nsn (DepRepo.mk nsn (girfilePath base inc))
        simp [parseDependency, hhit]

/-- C8 witness: a state whose cache already holds `GLib`; re-requesting
the `GLib-2.0` include is a no-op. -/
theorem C8_dependency_memoization_witness :
    parseDependency [("girdir/GLib-2.0.gir", "GLib")]
      { dependencies := [("GLib", { nsName := "GLib", girfile := "girdir/GLib-2.0.gir" })],
        searchPaths := ["girdir"], errorFlag := true }
      { name := "GLib", version := some "2.0" } =
    .ok ({ dependencies := [("GLib", { nsName := "GLib", girfile := "girdir/GLib-2.0.gir" })],
           searchPaths := ["girdir"], errorFlag := true }, []) :=
  (C8_dependency_memoization [("girdir/GLib-2.0.gir", "GLib")]
    { dependencies := [("GLib", { nsName := "GLib", girfile := "girdir/GLib-2.0.gir" })],
      searchPaths := ["girdir"], errorFlag := true }
    { name := "GLib", version := some "2.0" } (by decide)).1 (by decide)

/-! ## Claim C3: structural equality of `Type` -/

/-- C3: evaluation of `Type.__eq__` at the failing input.  Two
namespace-qualified types with the same namespace but different names
compare equal under the code (its name check reads
`self.name == self.name`), while the spec's structural equality —
same namespace *and* same name — rejects them.  The claim is right and
the code is a slip. -/
theorem C3_typeEq_at_failing_input :
    typeEq { name := "Gtk.Widget", ctype := none } { name := "Gtk.Window", ctype := none } = true
    ∧ typeEqSpec { name := "Gtk.Widget", ctype := none } { name := "Gtk.Window", ctype := none } = false := by
  constructor <;> decide

/-! ## Claim C4: the symbol table built by `resolve_symbols` -/

/-- A record with no methods, present so the records loop binds the
Python variable `record`. -/
def exRecord : Record :=
  { name := "Rec", methods := [] }

/-- A union with one method. -/
def exUnion : Union :=
  { name := "Uni", methods := [{ name := "m", identifier := "u_meth" }] }

/-- A namespace holding one record and one union with a method. -/
def exNs4 : Namespace :=
  { name := "Test", classes := [], interfaces := [], records := [exRecord],
    unions := [exUnion], functions := [] }

/-- C4: evaluation of `resolve_symbols` at the failing input.  The
union's method identifier is recorded under the *last record* of the
namespace (the stale `record` loop variable), not under the owning
union; and with no records at all the same assignment raises
`NameError`.  The claim (map to the owning type) is the evident intent
and the code a slip. -/
theorem C4_union_methods_map_to_stale_record :
    resolveSymbols exNs4 = .ok [("u_meth", Symbol.record exRecord)]
    ∧ resolveSymbols { exNs4 with records := [] } =
        .error "NameError: record is not defined" := by
  constructor <;> rfl

/-! ## Claim C5: `deprecated_since` on an element with no deprecation message -/

/-- C5: evaluation at the failing input.  An element with
`deprecated="1"` and `deprecated-version="1.2"` but no
`core:doc-deprecated` child parses to `deprecated_msg = None`, and
`deprecated_since` then returns `None`: the guard
`if not self.info.deprecated_msg` fires before the synthesized default
message (`"Please do not use it in newly written code"`) could be
attached, leaving that branch unreachable.  The claim matches the dead
branch's evident intent, so the code is the slip. -/
theorem C5_deprecated_without_message_yields_none :
    deprecatedSince (maybeParseDocsDeprecated
      { attrib := [("deprecated", "1"), ("deprecated-version", "1.2")],
        docDeprecatedText := none }
      Info.default) = none
    ∧ deprecatedSince (maybeParseDocsDeprecated
        { attrib := [("deprecated", "1")], docDeprecatedText := some "" }
        Info.default) = none := by
  constructor <;> rfl

/-! ## Claim C6: parameter direction / transfer defaults -/

/-- C6: `_parse_parameter` defaults `direction` to `"in"` and
`transfer-ownership` to `"none"` when the attributes are absent; in
particular `transfer-ownership="full"` with no `direction` yields
direction `"in"` and transfer `"full"`. -/
theorem C6_parameter_defaults (attrib : Attrs) :
    (attrGet attrib "direction" = none → (parseParameter attrib).direction = "in")
    ∧ (attrGet attrib "transfer-ownership" = none →
        (parseParameter attrib).transfer = "none")
    ∧ (attrGet attrib "direction" = none →
       attrGet attrib "transfer-ownership" = some "full" →
        (parseParameter attrib).direction = "in"
        ∧ (parseParameter attrib).transfer = "full") := by
  refine ⟨fun h => ?_, fun h => ?_, fun h1 h2 => ⟨?_, ?_⟩⟩ <;>
    simp [parseParameter, *]

/-- C6 witness: a single parameter attribute dict carrying only
`transfer-ownership="full"`. -/
theorem C6_parameter_defaults_witness :
    (parseParameter [("transfer-ownership", "full")]).direction = "in"
    ∧ (parseParameter [("transfer-ownership", "full")]).transfer = "full" :=
  (C6_parameter_defaults [("transfer-ownership", "full")]).2.2 rfl rfl

/-! ## Claim C7: zero-terminated inference for `<array>` -/

/-- C7: with none of `zero-terminated`, `length`, `fixed-size`, `name`
present, `_parse_array` infers `zero_terminated = True`; an explicit
`zero-terminated` attribute overrides the inference with its own value. -/
theorem C7_array_zero_terminated_default (attrib : Attrs) :
    (attrGet attrib "zero-terminated" = none → attrGet attrib "length" = none →
     attrGet attrib "fixed-size" = none → attrGet attrib "name" = none →
      parseArraySizing attrib = some
        { name := none, ctype := attrGet attrib "c:type",
          zero_terminated := true, fixed_size := -1, length := -1 })
    ∧ (∀ v r, attrGet attrib "zero-terminated" = some v →
        parseArraySizing attrib = some r → r.zero_terminated = (v == "1")) := by
  constructor
  · intro hz hl hf hn
    simp [parseArraySizing, hz, hl, hf, hn]
  · intro v r hz hr
    simp only [parseArraySizing, hz, Option.bind_eq_bind] at hr
    rcases hf : attrGet attrib "fixed-size" with _ | fs <;>
      rcases hl : attrGet attrib "length" with _ | ln <;>
      simp only [hf, hl] at hr
    · simp only [Option.pure_def, Option.bind_some] at hr
      cases hr
      rfl
    · rcases hln : ln.toInt? with _ | lv <;> simp [hln] at hr
      cases hr
      rfl
    · rcases hfs : fs.toInt? with _ | fv <;> simp [hfs] at hr
      cases hr
      rfl
    · rcases hfs : fs.toInt? with _ | fv <;> simp [hfs] at hr
      rcases hln : ln.toInt? with _ | lv <;> simp [hln] at hr
      cases hr
      rfl

/-- C7 witness: the empty attribute dict. -/
theorem C7_array_zero_terminated_witness :
    parseArraySizing [] = some
      { name := none, ctype := none, zero_terminated := true,
        fixed_size := -1, length := -1 } :=
  (C7_array_zero_terminated_default []).1 rfl rfl rfl rfl

/-! ## Claim C9: the `Repository.namespace` property -/

/-- A sequence of `add_namespace` calls on a repository. -/
def addNamespaces (r : Repository) (l : List Namespace) : Repository :=
  l.foldl Repository.addNamespace r

theorem addNamespaces_namespaces (l : List Namespace) (r : Repository) :
    (addNamespaces r l).namespaces = r.namespaces ++ l := by
  induction l generalizing r with
  | nil => simp [addNamespaces]
  | cons ns rest ih =>
    simp [addNamespaces, Repository.addNamespace] at ih ⊢
    simp [ih]

/-- C9: reading `Repository.namespace` on a fresh repository raises
`IndexError` (despite the `Optional` annotation it never returns
`None`); after at least one `add_namespace` it returns the first
namespace added. -/
theorem C9_namespace_property :
    (Repository.namespaceProp { namespaces := [] } = .error "IndexError")
    ∧ ∀ (ns : Namespace) (rest : List Namespace),
        (addNamespaces { namespaces := [] } (ns :: rest)).namespaceProp = .ok ns := by
  refine ⟨rfl, fun ns rest => ?_⟩
  have h := addNamespaces_namespaces (ns :: rest) { namespaces := [] }
  simp only [List.nil_append] at h
  simp [Repository.namespaceProp, h]

/-! ## Claim C10: `type_func` / `type_struct` on `gtype`-less types -/

/-- C10: an `Interface` with `gtype = None` raises `AttributeError`
from `type_func`, while a `Class` with `gtype = None` returns `None`
from `type_struct` and its `ctype` from `type_func`, raising nothing. -/
theorem C10_gtype_none_accessors (i : Interface) (c : Class)
    (hi : i.gtype = none) (hc : c.gtype = none) :
    i.typeFunc = .error "AttributeError"
    ∧ c.typeStruct = none
    ∧ c.typeFunc = c.ctype := by
  refine ⟨?_, ?_, ?_⟩ <;>
    simp [Interface.typeFunc, Class.typeStruct, Class.typeFunc, hi, hc]

/-! ## Claim C1: unresolvable parent references -/

/-- The parent reference `parent="Missing.Type"` of the scenario. -/
def refMissing : PyType :=
  { name := "Missing.Type", ctype := none }

/-- A class whose parent reference cannot be resolved. -/
def exFoo : Class :=
  { name := "Foo", ctype := some "TestFoo", gtype := none,
    parent := some refMissing, ancestors := [], methods := [] }

/-- A namespace with no `Missing` include. -/
def exNs1 : Namespace :=
  { name := "Test", classes := [exFoo], interfaces := [], records := [],
    unions := [], functions := [] }

/-- C1 counterexample: on a class with an unresolvable
`parent="Missing.Type"`, `resolve_class_ancestors` leaves
`ancestors == [parent-reference]`, not `[]`: the reference is appended
*before* the resolution attempt.  (No warning is logged either —
`resolve_class_ancestors` contains no logging call at all.) -/
theorem C1_counterexample_ancestors_not_empty :
    resolveClassAncestors exNs1 [] 2 =
      .ok (some { exNs1 with classes :=
        [{ exFoo with ancestors := [refMissing], parent := some refMissing }] })
    ∧ [refMissing] ≠ ([] : List PyType) := by
  constructor <;> decide

/-- C1 (amended): for every class whose parent reference is
unresolvable, `resolve_class_ancestors` does not raise and terminates
at once, leaving that class's ancestors equal to the singleton list
holding the unresolved parent reference (a truncated chain) and its
parent unchanged; no warning is logged, the method having no logging
statement. -/
theorem C1_unresolvable_parent_truncates (ns : Namespace)
    (includes : List (String × Namespace)) (cls : Class) (p : PyType) (fuel : Nat)
    (hp : cls.parent = some p)
    (hunres : resolveParentRef ns includes p = .ok none) :
    resolveClassAncestors1 ns includes (fuel + 1) cls =
      .ok (some { cls with ancestors := [p], parent := some p }) := by
  simp [resolveClassAncestors1, hp, ancestorsLoop, stepParent, hunres]

/-- C1 witness: the scenario namespace, with one unit of fuel beyond
the single iteration the loop performs. -/
theorem C1_unresolvable_parent_truncates_witness :
    resolveClassAncestors1 exNs1 [] 2 exFoo =
      .ok (some { exFoo with ancestors := [refMissing], parent := some refMissing }) :=
  C1_unresolvable_parent_truncates exNs1 [] exFoo refMissing 1 rfl (by decide)

/-! ## Claim C2: termination of `resolve_class_ancestors`

The loop's future is fully determined by `stepParent`, so termination
is equivalent to the `chainRef` iteration reaching `none`.  A chain
that revisits a reference whose resolution steps back to the start is
periodic and the loop runs forever. -/

/-- If the chain from `p` exits within `n` steps, the loop terminates
on fuel `n`, appending a non-empty visited list. -/
theorem ancestorsLoop_of_chainRef_none (ns : Namespace)
    (includes : List (String × Namespace)) :
    ∀ (n : Nat) (p : PyType) (acc : List PyType),
      chainRef ns includes n p = .ok none →
      ∃ l, l ≠ [] ∧ ancestorsLoop ns includes n p acc = .ok (some (acc ++ l)) := by
  intro n
  induction n with
  | zero =>
    intro p acc h
    simp [chainRef] at h
  | succ n ih =>
    intro p acc h
    cases hstep : stepParent ns includes p with
    | error e =>
      rw [chainRef, hstep] at h
      cases h
    | ok o =>
      cases o with
      | none =>
        refine ⟨[p], by simp, ?_⟩
        rw [ancestorsLoop, hstep]
      | some q =>
        rw [chainRef, hstep] at h
        obtain ⟨l, hl, hloop⟩ := ih q (acc ++ [p]) h
        refine ⟨p :: l, by simp, ?_⟩
        simp only [ancestorsLoop, hstep, hloop]
        simp

/-- Every reference the loop appends (beyond the initial accumulator)
is a value of the chain. -/
theorem ancestorsLoop_mem_chain (ns : Namespace)
    (includes : List (String × Namespace)) :
    ∀ (fuel : Nat) (p : PyType) (acc res : List PyType),
      ancestorsLoop ns includes fuel p acc = .ok (some res) →
      ∀ r ∈ res, r ∈ acc ∨ ∃ j, chainRef ns includes j p = .ok (some r) := by
  intro fuel
  induction fuel with
  | zero =>
    intro p acc res h
    cases h
  | succ n ih =>
    intro p acc res h r hr
    cases hstep : stepParent ns includes p with
    | error e =>
      rw [ancestorsLoop, hstep] at h
      cases h
    | ok o =>
      cases o with
      | none =>
        rw [ancestorsLoop, hstep] at h
        cases h
        rcases List.mem_append.mp hr with hacc | hp
        · exact Or.inl hacc
        · refine Or.inr ⟨0, ?_⟩
          have hrp : r = p := by simpa using hp
          rw [hrp, chainRef]
      | some q =>
        rw [ancestorsLoop, hstep] at h
        rcases ih q (acc ++ [p]) res h r hr with hacc | ⟨j, hj⟩
        · rcases List.mem_append.mp hacc with h1 | h2
          · exact Or.inl h1
          · refine Or.inr ⟨0, ?_⟩
            have hrp : r = p := by simpa using h2
            rw [hrp, chainRef]
        · refine Or.inr ⟨j + 1, ?_⟩
          rw [chainRef, hstep]
          exact hj

/-- Chain steps compose. -/
theorem chainRef_add (ns : Namespace) (includes : List (String × Namespace)) :
    ∀ (j : Nat) (p r : PyType),
      chainRef ns includes j p = .ok (some r) →
      ∀ k, chainRef ns includes (j + k) p = chainRef ns includes k r := by
  intro j
  induction j with
  | zero =>
    intro p r h k
    rw [chainRef] at h
    cases h
    simp
  | succ j ih =>
    intro p r h k
    cases hstep : stepParent ns includes p with
    | error e =>
      rw [chainRef, hstep] at h
      cases h
    | ok o =>
      cases o with
      | none =>
        rw [chainRef, hstep] at h
        cases h
      | some q =>
        rw [chainRef, hstep] at h
        have harith : j + 1 + k = (j + k) + 1 := by omega
        rw [harith, chainRef, hstep]
        exact ih q r h k

/-- Once the chain has exited it stays exited. -/
theorem chainRef_none_add (ns : Namespace) (includes : List (String × Namespace)) :
    ∀ (n : Nat) (p : PyType),
      chainRef ns includes n p = .ok none →
      ∀ k, chainRef ns includes (n + k) p = .ok none := by
  intro n
  induction n with
  | zero =>
    intro p h
    cases h
  | succ n ih =>
    intro p h k
    cases hstep : stepParent ns includes p with
    | error e =>
      rw [chainRef, hstep] at h
      cases h
    | ok o =>
      cases o with
      | none =>
        have harith : n + 1 + k = (n + k) + 1 := by omega
        rw [harith, chainRef, hstep]
      | some q =>
        rw [chainRef, hstep] at h
        have harith : n + 1 + k = (n + k) + 1 := by omega
        rw [harith, chainRef, hstep]
        exact ih q h k

/-- A chain that revisits its start is periodic: it never exits. -/
theorem chainRef_cycle (ns : Namespace) (includes : List (String × Namespace))
    (j : Nat) (p0 r : PyType)
    (hj : chainRef ns includes j p0 = .ok (some r))
    (hr : stepParent ns includes r = .ok (some p0)) :
    ∀ m, chainRef ns includes (m * (j + 1)) p0 = .ok (some p0) := by
  have hcyc : chainRef ns includes (j + 1) p0 = .ok (some p0) := by
    rw [chainRef_add ns includes j p0 r hj 1]
    have h1 : chainRef ns includes (0 + 1) r = .ok (some p0) := by
      rw [chainRef, hr]
      rfl
    simpa using h1
  intro m
  induction m with
  | zero => rw [Nat.zero_mul, chainRef]
  | succ m ih =>
    have harith : (m + 1) * (j + 1) = (j + 1) + m * (j + 1) := by
      rw [Nat.succ_mul, Nat.add_comm]
    rw [harith, chainRef_add ns includes (j + 1) p0 p0 hcyc (m * (j + 1))]
    exact ih

/-- On an undotted class name, the (buggy) `Type.__eq__` still implies
name equality when the right-hand side has no namespace. -/
theorem typeEq_name_of_undotted (r : PyType) (c : Class)
    (hdot : pyContains c.name '.' = false) :
    typeEq r c.asType = true → r.name = c.name := by
  intro h
  have hbns : (c.asType).pyNamespace = none := by
    simp [PyType.pyNamespace, Class.asType, hdot]
  rw [typeEq] at h
  cases hans : r.pyNamespace with
  | none =>
    rw [hans] at h
    cases hct : r.ctype with
    | none =>
      rw [hct] at h
      exact eq_of_beq h
    | some ct =>
      rw [hct] at h
      exact eq_of_beq (Bool.and_elim_left h)
  | some nsr =>
    rw [hans] at h
    rw [Bool.and_eq_true, hbns] at h
    simp at h

/-- If the per-class walk terminates at all for a class registered
under its own (undotted) name, the class cannot occur in the list it
produced: a visit to a reference carrying the class's name steps back
to the class's own parent, making the chain periodic. -/
theorem pyMemClass_false_of_terminating (ns : Namespace)
    (includes : List (String × Namespace)) (cls : Class) (p0 : PyType)
    (n fuel : Nat) (anc : List PyType)
    (hdot : pyContains cls.name '.' = false)
    (hfind : ns.findClass cls.name = some cls)
    (hp : cls.parent = some p0)
    (hfin : chainRef ns includes n p0 = .ok none)
    (hloop : ancestorsLoop ns includes fuel p0 [] = .ok (some anc)) :
    pyMemClass cls anc = false := by
  by_contra hmem
  rw [Bool.not_eq_false, pyMemClass, List.any_eq_true] at hmem
  obtain ⟨r, hr, heq⟩ := hmem
  have hname : r.name = cls.name := typeEq_name_of_undotted r cls hdot heq
  rcases ancestorsLoop_mem_chain ns includes fuel p0 [] anc hloop r hr with hin | ⟨j, hj⟩
  · cases hin
  · have hstep : stepParent ns includes r = .ok (some p0) := by
      rw [stepParent, resolveParentRef, hname, hdot]
      simp only [Bool.false_eq_true, if_false, hfind, hp]
    have hper := chainRef_cycle ns includes j p0 r hj hstep n
    have hle : n ≤ n * (j + 1) := Nat.le_mul_of_pos_right n (Nat.succ_pos j)
    have hnone := chainRef_none_add ns includes n p0 hfin (n * (j + 1) - n)
    have harith : n + (n * (j + 1) - n) = n * (j + 1) := by omega
    rw [harith] at hnone
    rw [hper] at hnone
    cases hnone

/-- The classes of the cyclic-ancestry counterexample. -/
def refA : PyType := { name := "A", ctype := none }

/-- The reference to class B. -/
def refB : PyType := { name := "B", ctype := none }

/-- Class A, whose parent is B. -/
def cycA : Class :=
  { name := "A", ctype := none, gtype := none, parent := some refB,
    ancestors := [], methods := [] }

/-- Class B, whose parent is A again. -/
def cycB : Class :=
  { name := "B", ctype := none, gtype := none, parent := some refA,
    ancestors := [], methods := [] }

/-- A namespace in which following parent references revisits classes. -/
def cycNs : Namespace :=
  { name := "Cyc", classes := [cycA, cycB], interfaces := [], records := [],
    unions := [], functions := [] }

theorem cyc_stepA : stepParent cycNs [] refA = .ok (some refB) := by decide

theorem cyc_stepB : stepParent cycNs [] refB = .ok (some refA) := by decide

theorem cyc_loop_none : ∀ (fuel : Nat) (acc : List PyType),
    ancestorsLoop cycNs [] fuel refA acc = .ok none
    ∧ ancestorsLoop cycNs [] fuel refB acc = .ok none := by
  intro fuel
  induction fuel with
  | zero => intro acc; exact ⟨rfl, rfl⟩
  | succ n ih =>
    intro acc
    constructor
    · rw [ancestorsLoop, cyc_stepA]
      exact (ih (acc ++ [refA])).2
    · rw [ancestorsLoop, cyc_stepB]
      exact (ih (acc ++ [refB])).1

/-- C2 counterexample: on the two-class namespace whose parent
references form a cycle, `resolve_class_ancestors` never completes —
no amount of fuel makes the `while` loop exit.  The claim's
"terminates … including graphs in which following parent references
revisits a class" is false of the code. -/
theorem C2_counterexample_cycle_diverges :
    ¬ ∃ (fuel : Nat) (res : Namespace),
        resolveClassAncestors cycNs [] fuel = .ok (some res) := by
  rintro ⟨fuel, res, h⟩
  have hB := (cyc_loop_none fuel []).2
  simp only [resolveClassAncestors, resolveAllClasses, resolveClassAncestors1,
    show cycNs.classes = [cycA, cycB] from rfl,
    show cycA.parent = some refB from rfl, hB] at h
  simp at h

/-- C2 (amended): `resolve_class_ancestors` terminates on a class
exactly when the chain of parent-resolution steps from its parent
reference exits in finitely many steps — on a cyclic chain the loop
runs forever.  When the chain from class `C`'s parent exits within `n`
steps, fuel `n` suffices, the resulting `C.ancestors` is a finite
non-empty list, and `C not in C.ancestors` holds (for `C` registered
under its own undotted name, with Python membership evaluated through
`Type.__eq__`). -/
theorem C2_terminates_iff_chain_finite (ns : Namespace)
    (includes : List (String × Namespace)) (cls : Class) (p : PyType) (n : Nat)
    (hp : cls.parent = some p)
    (hfin : chainRef ns includes n p = .ok none)
    (hdot : pyContains cls.name '.' = false)
    (hfind : ns.findClass cls.name = some cls) :
    ∃ anc : List PyType, anc ≠ []
      ∧ resolveClassAncestors1 ns includes n cls =
          .ok (some { cls with ancestors := anc, parent := anc.head? })
      ∧ pyMemClass cls anc = false := by
  obtain ⟨l, hne, hloop⟩ := ancestorsLoop_of_chainRef_none ns includes n p [] hfin
  rw [List.nil_append] at hloop
  refine ⟨l, hne, ?_, ?_⟩
  · simp only [resolveClassAncestors1, hp, hloop]
  · exact pyMemClass_false_of_terminating ns includes cls p n n l hdot hfind hp hfin hloop

/-- A class whose parent reference resolves to nothing: its chain exits
in one step. -/
def clsD : Class :=
  { name := "D", ctype := none, gtype := none,
    parent := some { name := "MissingParent", ctype := none },
    ancestors := [], methods := [] }

/-- The namespace of the termination witness. -/
def nsD : Namespace :=
  { name := "T2", classes := [clsD], interfaces := [], records := [],
    unions := [], functions := [] }

/-- C2 witness: a concrete class whose chain exits after one step. -/
theorem C2_terminates_iff_chain_finite_witness :
    ∃ anc : List PyType, anc ≠ []
      ∧ resolveClassAncestors1 nsD [] 1 clsD =
          .ok (some { clsD with ancestors := anc, parent := anc.head? })
      ∧ pyMemClass clsD anc = false :=
  C2_terminates_iff_chain_finite nsD [] clsD
    { name := "MissingParent", ctype := none } 1 rfl (by decide) (by decide) (by decide)

/-- C10 witness: a concrete gtype-less interface and class. -/
theorem C10_gtype_none_accessors_witness :
    Interface.typeFunc
        { name := "Ifc", ctype := some "TestIfc", gtype := none, methods := [] }
      = .error "AttributeError"
    ∧ Class.typeStruct
        { name := "Cls", ctype := some "TestCls", gtype := none, parent := none,
          ancestors := [], methods := [] } = none
    ∧ Class.typeFunc
        { name := "Cls", ctype := some "TestCls", gtype := none, parent := none,
          ancestors := [], methods := [] }
      = some "TestCls" :=
  C10_gtype_none_accessors
    { name := "Ifc", ctype := some "TestIfc", gtype := none, methods := [] }
    { name := "Cls", ctype := some "TestCls", gtype := none, parent := none,
      ancestors := [], methods := [] } rfl rfl

end GiDocgen
